import Mathlib

/-!
Verification of the qpSWIFT adapter `qpswift_solve_qp` from
`qpsolvers/solvers/qpswift_.py`.

The adapter is pure glue around the external native solver `qpSWIFT.run`:
it marshals arguments, force-sets two reserved option keys, routes on which
constraint blocks are present, and translates the backend's structured
result into `some solution` or `none`.

Shallow embedding choices:
- Matrix and vector entries are opaque pass-through data for the adapter;
  we model them as integers (`Vec`, `Mat`).
- The Python options dict is an association list with Python-dict update
  semantics (`dictSet`: replace the first binding of the key in place,
  else append at the end; `dictGet`: first binding wins).
- The external backend is a parameter `run : BackendCall → BackendResult`;
  `BackendCall` records exactly which calling convention was used and with
  which arguments, so "invoked exactly once, in this form" is expressible.
- The adapter's observable behaviour is an `AdapterOutcome`: whether the
  warm-start notice was printed, the list of backend invocations, the
  final state of the options mapping (the caller's dict is mutated in
  place in the source), and the returned value or raised error.
-/

abbrev Vec := List Int

abbrev Mat := List (List Int)

/-- Option dictionaries: string keys to (opaque, integer-modelled) values. -/
abbrev Opts := List (String × Int)

/-- Python dict assignment `o[k] = v`: replace the binding of `k` in place
if present, otherwise append `(k, v)` at the end. -/
def dictSet (o : Opts) (k : String) (v : Int) : Opts :=
  match o with
  | [] => [(k, v)]
  | (k', v') :: rest =>
      if k' = k then (k', v) :: rest else (k', v') :: dictSet rest k v

/-- Python dict lookup `o[k]`: first binding wins, `none` if absent. -/
def dictGet (o : Opts) (k : String) : Option Int :=
  match o with
  | [] => none
  | (k', v') :: rest => if k' = k then some v' else dictGet rest k

/-- The status sub-mapping of a backend result: `result["basicInfo"]`,
holding at least the exit flag `result["basicInfo"]["ExitFlag"]`. -/
structure BasicInfo where
  ExitFlag : Int
deriving DecidableEq, Repr

/-- The structured result returned by `qpSWIFT.run` when `OUTPUT` is 1:
a status sub-mapping and the solution field `result["sol"]`. -/
structure BackendResult where
  basicInfo : BasicInfo
  sol : Vec
deriving DecidableEq, Repr

/-- The two calling conventions the adapter uses for `qpSWIFT.run`;
constructor argument order mirrors the positional order in the source:
`qpSWIFT.run(q, h, P, G, A, b, opts)` and `qpSWIFT.run(q, h, P, G, opts=opts)`. -/
inductive BackendCall where
  | sixPos (q : Vec) (h : Vec) (P : Mat) (G : Mat) (A : Mat) (b : Vec) (opts : Opts)
  | fiveKw (q : Vec) (h : Vec) (P : Mat) (G : Mat) (opts : Opts)
deriving DecidableEq, Repr

/-- The options mapping handed to a backend call. -/
def BackendCall.opts : BackendCall → Opts
  | .sixPos _ _ _ _ _ _ o => o
  | .fiveKw _ _ _ _ o => o

/-- The only error the adapter raises (`NotImplementedError`), with its
message. -/
inductive AdapterError where
  | notImplemented (msg : String)
deriving DecidableEq, Repr

/-- Message of the `NotImplementedError` raised when the inequality block
is absent. -/
def wipMsg : String :=
  "QP without inequality constraints is still WIP for qpSWIFT"

/-- Everything observable about one adapter call: whether the warm-start
notice was printed to standard output, the backend invocations made, the
final state of the options mapping (the source mutates the caller's dict
in place), and the value returned or error raised. -/
structure AdapterOutcome where
  noticePrinted : Bool
  calls : List BackendCall
  finalOpts : Opts
  result : Except AdapterError (Option Vec)
deriving Repr

/-- Lines 128–131 of the source: default a missing `opts` to `{}`, then
`opts["OUTPUT"] = 1` and `opts["VERBOSE"] = 1 if verbose else 0`. -/
def adapterOpts (opts : Option Opts) (verbose : Bool) : Opts :=
  dictSet (dictSet (opts.getD []) "OUTPUT" 1) "VERBOSE" (if verbose then 1 else 0)

/-- Lines 142–145 of the source: read `result["basicInfo"]["ExitFlag"]`,
return `None` when it is non-zero, else return `result["sol"]`. -/
def finalizeResult (result : BackendResult) : Option Vec :=
  if result.basicInfo.ExitFlag ≠ 0 then none else some result.sol

/-- Shallow embedding of `qpswift_solve_qp` (qpsolvers/solvers/qpswift_.py,
lines 41–145), parameterised by the external backend `run`. Parameter
order mirrors the Python signature
`(P, q, G=None, h=None, A=None, b=None, initvals=None, verbose=False, opts=None)`. -/
def qpswift_solve_qp (run : BackendCall → BackendResult)
    (P : Mat) (q : Vec) (G : Option Mat) (h : Option Vec)
    (A : Option Mat) (b : Option Vec) (initvals : Option Vec)
    (verbose : Bool) (opts : Option Opts) : AdapterOutcome :=
  -- `if initvals is not None: print(...)`
  let noticePrinted := initvals.isSome
  let opts2 := adapterOpts opts verbose
  -- `if G is not None and h is not None:`
  match G, h with
  | some Gm, some hv =>
      -- `if A is not None and b is not None:`
      (match A, b with
       | some Am, some bv =>
           let call := BackendCall.sixPos q hv P Gm Am bv opts2
           ⟨noticePrinted, [call], opts2, Except.ok (finalizeResult (run call))⟩
       | _, _ =>  -- no equality constraint
           let call := BackendCall.fiveKw q hv P Gm opts2
           ⟨noticePrinted, [call], opts2, Except.ok (finalizeResult (run call))⟩)
  | _, _ =>  -- no inequality constraint
      ⟨noticePrinted, [], opts2,
        Except.error (AdapterError.notImplemented wipMsg)⟩

/-! ### Dictionary lemmas -/

theorem dictGet_dictSet_same (o : Opts) (k : String) (v : Int) :
    dictGet (dictSet o k v) k = some v := by
  induction o with
  | nil => simp [dictSet, dictGet]
  | cons p rest ih =>
      obtain ⟨k', v'⟩ := p
      by_cases hk : k' = k
      · simp [dictSet, dictGet, hk]
      · simp [dictSet, dictGet, hk, ih]

theorem dictGet_dictSet_other (o : Opts) (k k' : String) (v : Int)
    (hne : k' ≠ k) : dictGet (dictSet o k v) k' = dictGet o k' := by
  have hne' : ¬k = k' := fun hkk => hne hkk.symm
  induction o with
  | nil => simp [dictSet, dictGet, hne']
  | cons p rest ih =>
      obtain ⟨k0, v0⟩ := p
      by_cases hk : k0 = k
      · subst hk
        simp [dictSet, dictGet, hne']
      · simp [dictSet, dictGet, hk, ih]

theorem adapterOpts_OUTPUT (opts : Option Opts) (verbose : Bool) :
    dictGet (adapterOpts opts verbose) "OUTPUT" = some 1 := by
  unfold adapterOpts
  rw [dictGet_dictSet_other _ _ _ _ (by decide), dictGet_dictSet_same]

theorem adapterOpts_VERBOSE (opts : Option Opts) (verbose : Bool) :
    dictGet (adapterOpts opts verbose) "VERBOSE"
      = some (if verbose then 1 else 0) := by
  unfold adapterOpts
  rw [dictGet_dictSet_same]

/-! ### Concrete fixtures (spec section 8 example scenario) -/

def P0 : Mat := [[2, 0], [0, 2]]

def q0 : Vec := [-2, -5]

def G0 : Mat := [[1, 0]]

def h0 : Vec := [1]

def A0 : Mat := [[1, 1]]

def b0 : Vec := [3]

/-- A backend that always converges (exit flag 0). -/
def runOk : BackendCall → BackendResult := fun _ => ⟨⟨0⟩, [1, 2]⟩

/-- A backend that never converges (exit flag 1). -/
def runFail : BackendCall → BackendResult := fun _ => ⟨⟨1⟩, [5, 7]⟩

/-! ### Helper lemmas about the adapter -/

/-- Whenever the adapter made exactly the backend call `call`, its returned
value is the finalization of that call's backend result. -/
theorem result_of_calls (run : BackendCall → BackendResult)
    (P : Mat) (q : Vec) (G : Option Mat) (h : Option Vec)
    (A : Option Mat) (b : Option Vec) (initvals : Option Vec)
    (verbose : Bool) (opts : Option Opts) (call : BackendCall)
    (hcall : (qpswift_solve_qp run P q G h A b initvals verbose opts).calls
      = [call]) :
    (qpswift_solve_qp run P q G h A b initvals verbose opts).result
      = Except.ok (finalizeResult (run call)) := by
  cases G <;> cases h <;> cases A <;> cases b <;>
    simp [qpswift_solve_qp] at hcall ⊢ <;> rw [hcall]

/-- Whenever `call` is among the adapter's backend invocations, its options
argument is exactly the adapter-built mapping. -/
theorem opts_of_calls (run : BackendCall → BackendResult)
    (P : Mat) (q : Vec) (G : Option Mat) (h : Option Vec)
    (A : Option Mat) (b : Option Vec) (initvals : Option Vec)
    (verbose : Bool) (opts : Option Opts) (call : BackendCall)
    (hcall : call ∈ (qpswift_solve_qp run P q G h A b initvals verbose opts).calls) :
    call.opts = adapterOpts opts verbose := by
  cases G <;> cases h <;> cases A <;> cases b <;>
    simp [qpswift_solve_qp] at hcall <;>
    simp [hcall, BackendCall.opts]

/-! ### Claim theorems -/

/-- C1: for every input lacking both G and h, the adapter raises the
structural-limitation error (`NotImplementedError`), regardless of the
other arguments; and this is the only error the adapter ever raises —
every other outcome is a returned value (`Except.ok`), never an error. -/
theorem c1_only_error_is_the_structural_limitation
    (run : BackendCall → BackendResult) (P : Mat) (q : Vec)
    (A : Option Mat) (b : Option Vec) (initvals : Option Vec)
    (verbose : Bool) (opts : Option Opts) :
    (qpswift_solve_qp run P q none none A b initvals verbose opts).result
      = Except.error (AdapterError.notImplemented wipMsg)
    ∧ ∀ (G : Option Mat) (h : Option Vec) (e : AdapterError),
        (qpswift_solve_qp run P q G h A b initvals verbose opts).result
          = Except.error e →
        e = AdapterError.notImplemented wipMsg := by
  refine ⟨rfl, ?_⟩
  intro G h e heq
  cases G <;> cases h <;> cases A <;> cases b <;>
    simp [qpswift_solve_qp] at heq <;>
    exact heq.symm

/-- C1 witness: at a concrete input lacking G and h the error is raised,
and the error raised there is the structural-limitation error. -/
theorem c1_witness :
    (qpswift_solve_qp runOk P0 q0 none none none none none false none).result
      = Except.error (AdapterError.notImplemented wipMsg)
    ∧ AdapterError.notImplemented wipMsg = AdapterError.notImplemented wipMsg :=
  ⟨(c1_only_error_is_the_structural_limitation runOk P0 q0 none none none
      false none).1,
   (c1_only_error_is_the_structural_limitation runOk P0 q0 none none none
      false none).2 none none (AdapterError.notImplemented wipMsg) rfl⟩

/-- C2: for every backend result whose exit flag is non-zero, the adapter
returns the absent-solution sentinel `none`, never the raw `sol` field. -/
theorem c2_nonzero_exit_flag_returns_none
    (run : BackendCall → BackendResult) (P : Mat) (q : Vec)
    (G : Option Mat) (h : Option Vec) (A : Option Mat) (b : Option Vec)
    (initvals : Option Vec) (verbose : Bool) (opts : Option Opts)
    (call : BackendCall)
    (hcall : (qpswift_solve_qp run P q G h A b initvals verbose opts).calls
      = [call])
    (hflag : (run call).basicInfo.ExitFlag ≠ 0) :
    (qpswift_solve_qp run P q G h A b initvals verbose opts).result
      = Except.ok none := by
  rw [result_of_calls run P q G h A b initvals verbose opts call hcall]
  simp [finalizeResult, hflag]

/-- C2 witness: with a backend reporting exit flag 1 at a concrete
inequality-constrained input, the adapter returns `none`. -/
theorem c2_witness :
    (qpswift_solve_qp runFail P0 q0 (some G0) (some h0) none none none
      false none).result = Except.ok none :=
  c2_nonzero_exit_flag_returns_none runFail P0 q0 (some G0) (some h0)
    none none none false none
    (BackendCall.fiveKw q0 h0 P0 G0 (adapterOpts none false)) rfl (by decide)

/-- C3: for every backend result whose exit flag equals 0, the adapter
returns the backend's `sol` field unchanged. -/
theorem c3_zero_exit_flag_returns_sol_unchanged
    (run : BackendCall → BackendResult) (P : Mat) (q : Vec)
    (G : Option Mat) (h : Option Vec) (A : Option Mat) (b : Option Vec)
    (initvals : Option Vec) (verbose : Bool) (opts : Option Opts)
    (call : BackendCall)
    (hcall : (qpswift_solve_qp run P q G h A b initvals verbose opts).calls
      = [call])
    (hflag : (run call).basicInfo.ExitFlag = 0) :
    (qpswift_solve_qp run P q G h A b initvals verbose opts).result
      = Except.ok (some (run call).sol) := by
  rw [result_of_calls run P q G h A b initvals verbose opts call hcall]
  simp [finalizeResult, hflag]

/-- C3 witness: with a backend reporting exit flag 0 and solution vector
`[1, 2]` at a concrete input, the adapter returns exactly that vector. -/
theorem c3_witness :
    (qpswift_solve_qp runOk P0 q0 (some G0) (some h0) none none none
      false none).result
      = Except.ok (some (runOk (BackendCall.fiveKw q0 h0 P0 G0
          (adapterOpts none false))).sol) :=
  c3_zero_exit_flag_returns_sol_unchanged runOk P0 q0 (some G0) (some h0)
    none none none false none
    (BackendCall.fiveKw q0 h0 P0 G0 (adapterOpts none false)) rfl (by decide)

/-- C4: when G, h, A, b are all present, the adapter invokes the backend
exactly once, in the 6-positional form `(q, h, P, G, A, b, opts)`. -/
theorem c4_full_problem_uses_six_positional_form
    (run : BackendCall → BackendResult) (P : Mat) (q : Vec)
    (Gm : Mat) (hv : Vec) (Am : Mat) (bv : Vec) (initvals : Option Vec)
    (verbose : Bool) (opts : Option Opts) :
    (qpswift_solve_qp run P q (some Gm) (some hv) (some Am) (some bv)
      initvals verbose opts).calls
      = [BackendCall.sixPos q hv P Gm Am bv (adapterOpts opts verbose)] :=
  rfl

/-- C5: when G and h are present and the equality block absent, the
adapter invokes the backend exactly once, in the 5-argument keyword form
`(q, h, P, G, opts=opts)` with no equality arguments at all. -/
theorem c5_inequality_only_uses_five_keyword_form
    (run : BackendCall → BackendResult) (P : Mat) (q : Vec)
    (Gm : Mat) (hv : Vec) (initvals : Option Vec)
    (verbose : Bool) (opts : Option Opts) :
    (qpswift_solve_qp run P q (some Gm) (some hv) none none
      initvals verbose opts).calls
      = [BackendCall.fiveKw q hv P Gm (adapterOpts opts verbose)] :=
  rfl

/-- C6: every call that reaches the backend carries an options mapping in
which the two reserved keys are set to the adapter's computed values —
OUTPUT to 1 and VERBOSE to 1 or 0 per `verbose` — overriding any
caller-supplied values; with no caller mapping the backend receives
exactly those two keys. -/
theorem c6_reserved_option_keys_forced
    (run : BackendCall → BackendResult) (P : Mat) (q : Vec)
    (G : Option Mat) (h : Option Vec) (A : Option Mat) (b : Option Vec)
    (initvals : Option Vec) (verbose : Bool) (opts : Option Opts)
    (call : BackendCall)
    (hcall : call ∈ (qpswift_solve_qp run P q G h A b initvals verbose
      opts).calls) :
    dictGet call.opts "OUTPUT" = some 1
    ∧ dictGet call.opts "VERBOSE" = some (if verbose then 1 else 0)
    ∧ (opts = none →
        call.opts = [("OUTPUT", 1), ("VERBOSE", if verbose then 1 else 0)]) := by
  have hopts : call.opts = adapterOpts opts verbose :=
    opts_of_calls run P q G h A b initvals verbose opts call hcall
  refine ⟨?_, ?_, ?_⟩
  · rw [hopts]
    exact adapterOpts_OUTPUT opts verbose
  · rw [hopts]
    exact adapterOpts_VERBOSE opts verbose
  · intro ho
    subst ho
    rw [hopts]
    cases verbose <;> decide

/-- C6 witness: at a concrete call with no caller options and
`verbose = false`, the backend receives exactly OUTPUT ↦ 1, VERBOSE ↦ 0. -/
theorem c6_witness :
    dictGet (BackendCall.fiveKw q0 h0 P0 G0 (adapterOpts none false)).opts
      "OUTPUT" = some 1
    ∧ dictGet (BackendCall.fiveKw q0 h0 P0 G0 (adapterOpts none false)).opts
        "VERBOSE" = some (if false then 1 else 0)
    ∧ (BackendCall.fiveKw q0 h0 P0 G0 (adapterOpts none false)).opts
        = [("OUTPUT", 1), ("VERBOSE", if false then 1 else 0)] := by
  have h := c6_reserved_option_keys_forced runOk P0 q0 (some G0) (some h0)
    none none none false none
    (BackendCall.fiveKw q0 h0 P0 G0 (adapterOpts none false))
    (List.Mem.head _)
  exact ⟨h.1, h.2.1, h.2.2 rfl⟩

/-- C7: two invocations differing only in `initvals` — one absent, one
supplied — make identical backend calls, leave the options mapping in the
same state, and return the same result; the supplied guess only flips the
diagnostic notice. -/
theorem c7_initial_guess_never_changes_behaviour
    (run : BackendCall → BackendResult) (P : Mat) (q : Vec)
    (G : Option Mat) (h : Option Vec) (A : Option Mat) (b : Option Vec)
    (v0 : Vec) (verbose : Bool) (opts : Option Opts) :
    (qpswift_solve_qp run P q G h A b (some v0) verbose opts).calls
      = (qpswift_solve_qp run P q G h A b none verbose opts).calls
    ∧ (qpswift_solve_qp run P q G h A b (some v0) verbose opts).result
      = (qpswift_solve_qp run P q G h A b none verbose opts).result
    ∧ (qpswift_solve_qp run P q G h A b (some v0) verbose opts).finalOpts
      = (qpswift_solve_qp run P q G h A b none verbose opts).finalOpts
    ∧ (qpswift_solve_qp run P q G h A b (some v0) verbose opts).noticePrinted
      = true
    ∧ (qpswift_solve_qp run P q G h A b none verbose opts).noticePrinted
      = false := by
  cases G <;> cases h <;> cases A <;> cases b <;>
    exact ⟨rfl, rfl, rfl, rfl, rfl⟩

/-- C8: when exactly one of G and h is present, the adapter raises the
same structural-limitation error as when both are absent, making no
backend call: the inequality block counts as absent unless both parts
are supplied. -/
theorem c8_incomplete_inequality_pair_raises
    (run : BackendCall → BackendResult) (P : Mat) (q : Vec)
    (A : Option Mat) (b : Option Vec) (initvals : Option Vec)
    (verbose : Bool) (opts : Option Opts) :
    (∀ Gm : Mat,
      (qpswift_solve_qp run P q (some Gm) none A b initvals verbose
        opts).result = Except.error (AdapterError.notImplemented wipMsg)
      ∧ (qpswift_solve_qp run P q (some Gm) none A b initvals verbose
          opts).calls = [])
    ∧ ∀ hv : Vec,
        (qpswift_solve_qp run P q none (some hv) A b initvals verbose
          opts).result = Except.error (AdapterError.notImplemented wipMsg)
        ∧ (qpswift_solve_qp run P q none (some hv) A b initvals verbose
            opts).calls = [] :=
  ⟨fun _ => ⟨rfl, rfl⟩, fun _ => ⟨rfl, rfl⟩⟩

/-- C9: when G and h are present but exactly one of A and b is, the
adapter silently drops the supplied equality part: it uses the
5-argument keyword form, returns the finalized backend result, and
prints nothing beyond the warm-start notice. -/
theorem c9_incomplete_equality_pair_silently_dropped
    (run : BackendCall → BackendResult) (P : Mat) (q : Vec)
    (Gm : Mat) (hv : Vec) (initvals : Option Vec)
    (verbose : Bool) (opts : Option Opts) :
    (∀ Am : Mat,
      (qpswift_solve_qp run P q (some Gm) (some hv) (some Am) none
        initvals verbose opts).calls
        = [BackendCall.fiveKw q hv P Gm (adapterOpts opts verbose)]
      ∧ (qpswift_solve_qp run P q (some Gm) (some hv) (some Am) none
          initvals verbose opts).result
        = Except.ok (finalizeResult (run (BackendCall.fiveKw q hv P Gm
            (adapterOpts opts verbose))))
      ∧ (qpswift_solve_qp run P q (some Gm) (some hv) (some Am) none
          initvals verbose opts).noticePrinted = initvals.isSome)
    ∧ ∀ bv : Vec,
        (qpswift_solve_qp run P q (some Gm) (some hv) none (some bv)
          initvals verbose opts).calls
          = [BackendCall.fiveKw q hv P Gm (adapterOpts opts verbose)]
        ∧ (qpswift_solve_qp run P q (some Gm) (some hv) none (some bv)
            initvals verbose opts).result
          = Except.ok (finalizeResult (run (BackendCall.fiveKw q hv P Gm
              (adapterOpts opts verbose))))
        ∧ (qpswift_solve_qp run P q (some Gm) (some hv) none (some bv)
            initvals verbose opts).noticePrinted = initvals.isSome :=
  ⟨fun _ => ⟨rfl, rfl, rfl⟩, fun _ => ⟨rfl, rfl, rfl⟩⟩

/-- C10: on the error path (G and h absent) with a caller-supplied
options mapping, the adapter still writes the two reserved keys into
that mapping before raising, makes no backend call, and raises the
structural-limitation error: the caller's mapping is mutated despite
the error. -/
theorem c10_options_mutated_before_error
    (run : BackendCall → BackendResult) (P : Mat) (q : Vec)
    (A : Option Mat) (b : Option Vec) (initvals : Option Vec)
    (verbose : Bool) (o : Opts) :
    (qpswift_solve_qp run P q none none A b initvals verbose
      (some o)).result = Except.error (AdapterError.notImplemented wipMsg)
    ∧ (qpswift_solve_qp run P q none none A b initvals verbose
        (some o)).calls = []
    ∧ (qpswift_solve_qp run P q none none A b initvals verbose
        (some o)).finalOpts = adapterOpts (some o) verbose
    ∧ dictGet (qpswift_solve_qp run P q none none A b initvals verbose
        (some o)).finalOpts "OUTPUT" = some 1
    ∧ dictGet (qpswift_solve_qp run P q none none A b initvals verbose
        (some o)).finalOpts "VERBOSE" = some (if verbose then 1 else 0) :=
  ⟨rfl, rfl, rfl, adapterOpts_OUTPUT (some o) verbose,
    adapterOpts_VERBOSE (some o) verbose⟩
